import Mathlib

/-!
# Verification of the shared-clipboard editor

Shallow embedding of the two source files of the repository:

* `src/src/lib/api.ts` — a REST client over four endpoints (namespace `Api`);
* `src/unnamed/part_000` — the `ClipboardEditor` React component (debounced
  auto-save over an editor state) together with a second, embedded copy of the
  REST client (namespace `Api2`).

The HTTP layer is modelled as a function from `Request` to `FetchResult`: a
fetch either rejects (network failure, carrying the message of the rejection
`Error`) or yields a response with an `ok` flag, a numeric status and a body
already parsed as JSON (the client always consumes bodies via
`response.json()`; bodies are modelled at the JSON level, matching the
plain-JSON wire protocol).  All exceptions thrown in the modelled code are
JavaScript `Error` values and are represented by their message string, so a
fallible operation returns `Except String α`.
-/

/-- JSON values, the wire-level data model of the client. -/
inductive Json where
  | null : Json
  | bool : Bool → Json
  | num : Int → Json
  | str : String → Json
  | arr : List Json → Json
  | obj : List (String × Json) → Json

/-- Hexadecimal digit character (lowercase), as used by `JSON.stringify`
for control-character escapes. -/
def hexDigit (d : Nat) : Char :=
  if d < 10 then Char.ofNat (48 + d) else Char.ofNat (87 + d)

/-- Escape of one character inside a JSON string literal, following
`JSON.stringify`. Character codes are used to name the escaped characters:
34 is the double quote, 92 the backslash. -/
def escapeChar (c : Char) : String :=
  if c.toNat = 34 then "\\\""
  else if c.toNat = 92 then "\\\\"
  else if c.toNat = 8 then "\\b"
  else if c.toNat = 9 then "\\t"
  else if c.toNat = 10 then "\\n"
  else if c.toNat = 12 then "\\f"
  else if c.toNat = 13 then "\\r"
  else if c.toNat < 32 then
    "\\u00" ++ String.mk [hexDigit (c.toNat / 16), hexDigit (c.toNat % 16)]
  else String.singleton c

/-- Escape of a whole string body for a JSON string literal. -/
def Json.escapeString (s : String) : String :=
  s.data.foldl (fun acc c => acc ++ escapeChar c) ""

mutual

/-- Serialisation of a JSON value, following `JSON.stringify` (no spaces,
insertion order of object fields preserved). -/
def Json.stringify : Json → String
  | .null => "null"
  | .bool b => cond b "true" "false"
  | .num n => toString n
  | .str s => "\"" ++ Json.escapeString s ++ "\""
  | .arr xs => "[" ++ Json.stringifyList xs ++ "]"
  | .obj fs => "\x7b" ++ Json.stringifyFields fs ++ "\x7d"

/-- Comma-separated serialisation of array elements. -/
def Json.stringifyList : List Json → String
  | [] => ""
  | [j] => Json.stringify j
  | j :: js => Json.stringify j ++ "," ++ Json.stringifyList js

/-- Comma-separated serialisation of object fields. -/
def Json.stringifyFields : List (String × Json) → String
  | [] => ""
  | [(k, v)] => "\"" ++ Json.escapeString k ++ "\":" ++ Json.stringify v
  | (k, v) :: fs =>
      "\"" ++ Json.escapeString k ++ "\":" ++ Json.stringify v ++ "," ++
        Json.stringifyFields fs

end

/-- An HTTP request as assembled by a `fetch` call site: method, URL, the
header list, the optional string body, and the optional request mode
(`'cors'` in the embedded client copy). -/
structure Request where
  method : String
  url : String
  headers : List (String × String)
  body : Option String
  mode : Option String
deriving DecidableEq

/-- Outcome of a `fetch`: either the promise rejects (network failure, with
the message of the rejection `Error`), or a response arrives, carrying its
`ok` flag, its status code and its body parsed as JSON. -/
inductive FetchResult where
  | networkError : String → FetchResult
  | response : Bool → Nat → Json → FetchResult

/-- True on `Except.error`, i.e. the modelled async function rejects. -/
def exceptIsError {ε α : Type} : Except ε α → Bool
  | .error _ => true
  | .ok _ => false

namespace Api

/-- Request of `createClipboard` in `src/src/lib/api.ts`: POST to
`/clipboard/new` with a JSON content type and no body. -/
def createRequest (baseUrl : String) : Request :=
  { method := "POST"
    url := baseUrl ++ "/clipboard/new"
    headers := [("Content-Type", "application/json")]
    body := none
    mode := none }

/-- Response handling of `createClipboard`: throw `Failed to create
clipboard` unless the response is ok, otherwise return the parsed body. -/
def createHandle : FetchResult → Except String Json
  | .networkError msg => .error msg
  | .response ok _ body =>
      if !ok then .error "Failed to create clipboard" else .ok body

/-- `createClipboard` of `src/src/lib/api.ts`, as a function of the
behaviour of `fetch`. -/
def createClipboard (baseUrl : String) (fetchFn : Request → FetchResult) :
    Except String Json :=
  createHandle (fetchFn (createRequest baseUrl))

/-- Request of `getClipboard`: GET `/clipboard/:id`, no headers, no body. -/
def getRequest (baseUrl clipboardId : String) : Request :=
  { method := "GET"
    url := baseUrl ++ "/clipboard/" ++ clipboardId
    headers := []
    body := none
    mode := none }

/-- Response handling of `getClipboard`: on a non-ok response throw
`Clipboard not found` for status 404 and `Failed to fetch clipboard`
otherwise; on an ok response return the parsed body. -/
def getHandle : FetchResult → Except String Json
  | .networkError msg => .error msg
  | .response ok status body =>
      if !ok then
        if status = 404 then .error "Clipboard not found"
        else .error "Failed to fetch clipboard"
      else .ok body

/-- `getClipboard` of `src/src/lib/api.ts`. -/
def getClipboard (baseUrl clipboardId : String)
    (fetchFn : Request → FetchResult) : Except String Json :=
  getHandle (fetchFn (getRequest baseUrl clipboardId))

/-- Request of `updateClipboard`: PUT `/clipboard/:id` with a JSON content
type and body `JSON.stringify \x7b content \x7d`. -/
def updateRequest (baseUrl clipboardId content : String) : Request :=
  { method := "PUT"
    url := baseUrl ++ "/clipboard/" ++ clipboardId
    headers := [("Content-Type", "application/json")]
    body := some (Json.stringify (Json.obj [("content", Json.str content)]))
    mode := none }

/-- Response handling of `updateClipboard`: on a non-ok response throw
`Clipboard not found` for status 404 and `Failed to update clipboard`
otherwise; on an ok response return the parsed body. -/
def updateHandle : FetchResult → Except String Json
  | .networkError msg => .error msg
  | .response ok status body =>
      if !ok then
        if status = 404 then .error "Clipboard not found"
        else .error "Failed to update clipboard"
      else .ok body

/-- `updateClipboard` of `src/src/lib/api.ts`. -/
def updateClipboard (baseUrl clipboardId content : String)
    (fetchFn : Request → FetchResult) : Except String Json :=
  updateHandle (fetchFn (updateRequest baseUrl clipboardId content))

/-- Request of `checkHealth`: GET `/health`, no headers, no body. -/
def healthRequest (baseUrl : String) : Request :=
  { method := "GET"
    url := baseUrl ++ "/health"
    headers := []
    body := none
    mode := none }

/-- `checkHealth` of `src/src/lib/api.ts`: returns `response.ok`, and the
surrounding try/catch converts a fetch rejection into `false`. -/
def checkHealth (baseUrl : String) (fetchFn : Request → FetchResult) :
    Except String Bool :=
  match fetchFn (healthRequest baseUrl) with
  | .networkError _ => .ok false
  | .response ok _ _ => .ok ok

end Api

namespace Api2

/-- Request of `createClipboard` in the copy of the client embedded in
`src/unnamed/part_000`: as in `Api.createRequest` plus `mode: 'cors'`. -/
def createRequest (baseUrl : String) : Request :=
  { method := "POST"
    url := baseUrl ++ "/clipboard/new"
    headers := [("Content-Type", "application/json")]
    body := none
    mode := some "cors" }

/-- Response handling of the embedded `createClipboard`; the copy also logs
the parsed body to the console, console output being outside the value
model. -/
def createHandle : FetchResult → Except String Json
  | .networkError msg => .error msg
  | .response ok _ body =>
      if !ok then .error "Failed to create clipboard" else .ok body

/-- Embedded `createClipboard` of `src/unnamed/part_000`. -/
def createClipboard (baseUrl : String) (fetchFn : Request → FetchResult) :
    Except String Json :=
  createHandle (fetchFn (createRequest baseUrl))

/-- Request of the embedded `getClipboard`: as `Api.getRequest` plus
`mode: 'cors'`. -/
def getRequest (baseUrl clipboardId : String) : Request :=
  { method := "GET"
    url := baseUrl ++ "/clipboard/" ++ clipboardId
    headers := []
    body := none
    mode := some "cors" }

/-- Response handling of the embedded `getClipboard` (identical branching
and messages; the copy additionally writes console logs). -/
def getHandle : FetchResult → Except String Json
  | .networkError msg => .error msg
  | .response ok status body =>
      if !ok then
        if status = 404 then .error "Clipboard not found"
        else .error "Failed to fetch clipboard"
      else .ok body

/-- Embedded `getClipboard` of `src/unnamed/part_000`. -/
def getClipboard (baseUrl clipboardId : String)
    (fetchFn : Request → FetchResult) : Except String Json :=
  getHandle (fetchFn (getRequest baseUrl clipboardId))

/-- Request of the embedded `updateClipboard`, identical to
`Api.updateRequest`. -/
def updateRequest (baseUrl clipboardId content : String) : Request :=
  { method := "PUT"
    url := baseUrl ++ "/clipboard/" ++ clipboardId
    headers := [("Content-Type", "application/json")]
    body := some (Json.stringify (Json.obj [("content", Json.str content)]))
    mode := none }

/-- Response handling of the embedded `updateClipboard`, identical to
`Api.updateHandle`. -/
def updateHandle : FetchResult → Except String Json
  | .networkError msg => .error msg
  | .response ok status body =>
      if !ok then
        if status = 404 then .error "Clipboard not found"
        else .error "Failed to update clipboard"
      else .ok body

/-- Embedded `updateClipboard` of `src/unnamed/part_000`. -/
def updateClipboard (baseUrl clipboardId content : String)
    (fetchFn : Request → FetchResult) : Except String Json :=
  updateHandle (fetchFn (updateRequest baseUrl clipboardId content))

/-- Request of the embedded `checkHealth`, identical to
`Api.healthRequest`. -/
def healthRequest (baseUrl : String) : Request :=
  { method := "GET"
    url := baseUrl ++ "/health"
    headers := []
    body := none
    mode := none }

/-- Embedded `checkHealth`, identical to `Api.checkHealth`. -/
def checkHealth (baseUrl : String) (fetchFn : Request → FetchResult) :
    Except String Bool :=
  match fetchFn (healthRequest baseUrl) with
  | .networkError _ => .ok false
  | .response ok _ _ => .ok ok

end Api2

/-! ## The `ClipboardEditor` component

The editor consumes the API at its declared TypeScript interface, so its
state model stores `Clipboard` records of the declared four-field shape;
the wire-level, unvalidated JSON behaviour of the client is treated in the
`Api` namespace above.  The remote server's behaviour is a parameter
(`server` for `updateClipboard`, `getServer` for `getClipboard`), each
returning either a clipboard record or the message of the thrown error.

React state setters are modelled as field updates on an explicit
`EditorState`; an async handler is one atomic state transformer, its
`await` being the application of the server parameter.  `updateCalls` is
ghost instrumentation: it logs every `updateClipboard` invocation (the
outgoing HTTP request) with its arguments, and is not UI state. -/

/-- The declared `Clipboard` interface: four string fields. -/
structure Clipboard where
  id : String
  content : String
  created_at : String
  updated_at : String
deriving DecidableEq

/-- Serialisation of a declared clipboard record into wire-level JSON. -/
def Clipboard.toJson (c : Clipboard) : Json :=
  Json.obj [("id", Json.str c.id), ("content", Json.str c.content),
    ("created_at", Json.str c.created_at), ("updated_at", Json.str c.updated_at)]

/-- The field names of the declared clipboard record. -/
def clipboardFieldNames : List String :=
  ["id", "content", "created_at", "updated_at"]

/-- True when the object fields bind `k` to a JSON string. -/
def isStrField (fs : List (String × Json)) (k : String) : Bool :=
  match fs.lookup k with
  | some (Json.str _) => true
  | _ => false

/-- True when a JSON value is an object with exactly the four string fields
`id`, `content`, `created_at`, `updated_at` and no others. -/
def Json.isClipboardRecord : Json → Bool
  | Json.obj fs => fs.length == 4 && clipboardFieldNames.all (isStrField fs)
  | _ => false

/-- A toast notification as passed to the `toast` hook. -/
structure Toast where
  title : String
  description : String
  variant : Option String
deriving DecidableEq

/-- The React state of `ClipboardEditor` (the `copiedContent` / `copiedLink`
flags of the copy buttons are visual-layer state not touched by the claims
and are omitted), together with the `lastSavedContent` ref, the emitted
toasts, and the ghost log `updateCalls` of `updateClipboard` invocations. -/
structure EditorState where
  content : String
  clipboard : Option Clipboard
  isLoading : Bool
  isSaving : Bool
  hasChanges : Bool
  error : Option String
  lastSavedContent : String
  toasts : List Toast
  updateCalls : List (String × String)
deriving DecidableEq

/-- The state of a freshly mounted component: the `useState` initial values
and the initial `lastSavedContent` ref value. -/
def initEditorState : EditorState :=
  { content := ""
    clipboard := none
    isLoading := true
    isSaving := false
    hasChanges := false
    error := none
    lastSavedContent := ""
    toasts := []
    updateCalls := [] }

/-- `saveContent` of `src/unnamed/part_000`: bail out when the content
equals the last saved content; otherwise set `isSaving`, issue
`updateClipboard` (logged in `updateCalls`), and on success store the
response, advance `lastSavedContent` and clear `hasChanges`, while on
error emit a destructive toast; `finally` clears `isSaving`. -/
def saveContent (clipboardId : String)
    (server : String → String → Except String Clipboard)
    (newContent : String) (s : EditorState) : EditorState :=
  if newContent = s.lastSavedContent then s
  else
    let s1 : EditorState :=
      { s with isSaving := true
               updateCalls := s.updateCalls ++ [(clipboardId, newContent)] }
    match server clipboardId newContent with
    | .ok data =>
        { s1 with clipboard := some data
                  lastSavedContent := newContent
                  hasChanges := false
                  isSaving := false }
    | .error msg =>
        { s1 with toasts := s1.toasts ++
            [⟨"Failed to save", msg, some "destructive"⟩]
                  isSaving := false }

/-- `fetchClipboard` of the mount effect in `src/unnamed/part_000`: set
`isLoading`, clear `error`, issue `getClipboard`; on success store the
record and initialise `content` and the `lastSavedContent` ref from it, on
error store the error message; `finally` clears `isLoading`. -/
def fetchClipboard (clipboardId : String)
    (getServer : String → Except String Clipboard)
    (s : EditorState) : EditorState :=
  let s1 : EditorState := { s with isLoading := true, error := none }
  match getServer clipboardId with
  | .ok data =>
      { s1 with clipboard := some data
                content := data.content
                lastSavedContent := data.content
                isLoading := false }
  | .error msg =>
      { s1 with error := some msg, isLoading := false }

/-! ## The debounce timer system

`setTimeout` / `clearTimeout` are modelled by an explicit environment of
pending timers: a pending timer has the identifier `setTimeout` returned,
its fire time, and the content captured by the scheduled closure.
`saveTimeoutRef` holds the identifier of the most recently set timer (the
source never resets it, so it may be stale, and `clearTimeout` on a fired
identifier is a no-op, here a filter that removes nothing).  The ghost
field `lastEdit` records the time and content of the most recent edit. -/

/-- A pending `setTimeout` save timer. -/
structure Timer where
  id : Nat
  fireAt : Nat
  content : String
deriving DecidableEq

/-- The component state together with the timer environment:
pending timers, the `saveTimeoutRef` ref, the next fresh timer identifier,
and the ghost record of the most recent edit. -/
structure SysState where
  ed : EditorState
  timers : List Timer
  saveTimeoutRef : Option Nat
  nextId : Nat
  lastEdit : Option (Nat × String)
deriving DecidableEq

/-- A mounted system: the given editor state with no pending timer. -/
def mkSys (ed : EditorState) : SysState :=
  { ed := ed, timers := [], saveTimeoutRef := none, nextId := 0,
    lastEdit := none }

/-- `clearTimeout(saveTimeoutRef.current)` on the timer environment. -/
def clearSaveTimeout (timers : List Timer) : Option Nat → List Timer
  | none => timers
  | some i => timers.filter (fun tm => tm.id != i)

/-- `handleContentChange` of `src/unnamed/part_000`, run at time `t`: set
`content`, recompute `hasChanges`, clear any timeout named by the ref, and
schedule a new 1500 ms save timer capturing the new content. -/
def handleContentChange (t : Nat) (newContent : String) (s : SysState) :
    SysState :=
  { s with
    ed := { s.ed with
              content := newContent
              hasChanges := decide (newContent ≠ s.ed.lastSavedContent) }
    timers := clearSaveTimeout s.timers s.saveTimeoutRef ++
      [⟨s.nextId, t + 1500, newContent⟩]
    saveTimeoutRef := some s.nextId
    nextId := s.nextId + 1
    lastEdit := some (t, newContent) }

/-- `handleManualSave` of `src/unnamed/part_000`: clear any timeout named
by the ref (the ref itself is not reset) and save the current content. -/
def handleManualSave (clipboardId : String)
    (server : String → String → Except String Clipboard) (s : SysState) :
    SysState :=
  { s with
    timers := clearSaveTimeout s.timers s.saveTimeoutRef
    ed := saveContent clipboardId server s.ed.content s.ed }

/-- Events of the editor session: a keystroke at time `t`, the firing of a
pending save timer at time `t`, and a manual save. -/
inductive Ev where
  | edit : Nat → String → Ev
  | fire : Nat → Timer → Ev
  | manual : Nat → Ev
deriving DecidableEq

/-- One step of the system.  A firing timer is removed from the pending
environment and its scheduled closure runs `saveContent` on the content it
captured. -/
def stepSys (clipboardId : String)
    (server : String → String → Except String Clipboard)
    (s : SysState) : Ev → SysState
  | .edit t c => handleContentChange t c s
  | .fire _ tm =>
      { s with
        timers := s.timers.filter (fun x => x.id != tm.id)
        ed := saveContent clipboardId server tm.content s.ed }
  | .manual _ => handleManualSave clipboardId server s

/-- Validity of an event: a timer may fire only while pending and only at
its scheduled time; edits and manual saves are always available. -/
def validEv (s : SysState) : Ev → Bool
  | .fire t tm => decide (tm ∈ s.timers) && decide (t = tm.fireAt)
  | _ => true

/-- A trace is valid when every event is valid in the state it meets. -/
def validTrace (clipboardId : String)
    (server : String → String → Except String Clipboard) :
    SysState → List Ev → Bool
  | _, [] => true
  | s, e :: rest =>
      validEv s e &&
        validTrace clipboardId server (stepSys clipboardId server s e) rest

/-- The state reached by running a trace of events. -/
def runTrace (clipboardId : String)
    (server : String → String → Except String Clipboard) :
    SysState → List Ev → SysState
  | s, [] => s
  | s, e :: rest =>
      runTrace clipboardId server (stepSys clipboardId server s e) rest

/-- The debounce invariant: either no save timer is pending, or exactly one
is, it is the one named by `saveTimeoutRef`, and it is scheduled 1500 ms
after the most recent edit with that edit's content, which is the current
editor content. -/
def DebounceInv (s : SysState) : Prop :=
  s.timers = [] ∨
    ∃ tm t0 c0, s.timers = [tm] ∧ s.saveTimeoutRef = some tm.id ∧
      s.lastEdit = some (t0, c0) ∧ tm.fireAt = t0 + 1500 ∧
      tm.content = c0 ∧ s.ed.content = c0

/-- True when the request carries a header of the given name. -/
def hasHeader (r : Request) (name : String) : Bool :=
  r.headers.any (fun kv => kv.1 == name)

/-! ### Concrete fixtures used by witnesses and counterexamples -/

/-- A server that accepts every update and echoes the content back. -/
def srvOk : String → String → Except String Clipboard :=
  fun _ c => Except.ok ⟨"id1", c, "t0", "t1"⟩

/-- A server that rejects every update. -/
def srvErr : String → String → Except String Clipboard :=
  fun _ _ => Except.error "Failed to update clipboard"

/-- A read that fails with the 404 message. -/
def getSrvErr : String → Except String Clipboard :=
  fun _ => Except.error "Clipboard not found"

/-- A fetch behaviour answering every request with an ok `null` body. -/
def fetchOkNull : Request → FetchResult :=
  fun _ => FetchResult.response true 200 Json.null

/-- A fetch behaviour answering every request with status 404. -/
def fetchNotFound : Request → FetchResult :=
  fun _ => FetchResult.response false 404 Json.null

/-- A fetch behaviour answering every request with an ok empty-object
body. -/
def fetchOkEmptyObj : Request → FetchResult :=
  fun _ => FetchResult.response true 200 (Json.obj [])

/-- Two keystrokes, at 10 ms ("a") and 100 ms ("ab"). -/
def evsW : List Ev := [Ev.edit 10 "a", Ev.edit 100 "ab"]

/-! ## Theorems -/

/-- Clearing the referenced timeout empties the timer environment whenever
the debounce invariant holds. -/
theorem clearSaveTimeout_of_inv (s : SysState) (h : DebounceInv s) :
    clearSaveTimeout s.timers s.saveTimeoutRef = [] := by
  rcases h with h | ⟨tm, t0, c0, htm, href, -⟩
  · rw [h]; cases s.saveTimeoutRef <;> rfl
  · rw [htm, href]; simp [clearSaveTimeout]

/-- One valid step preserves the debounce invariant. -/
theorem debounceInv_step (clipboardId : String)
    (server : String → String → Except String Clipboard)
    (s : SysState) (e : Ev) (hInv : DebounceInv s)
    (hv : validEv s e = true) :
    DebounceInv (stepSys clipboardId server s e) := by
  cases e with
  | edit t c =>
      right
      refine ⟨⟨s.nextId, t + 1500, c⟩, t, c, ?_, rfl, rfl, rfl, rfl, rfl⟩
      show clearSaveTimeout s.timers s.saveTimeoutRef ++
        [⟨s.nextId, t + 1500, c⟩] = _
      rw [clearSaveTimeout_of_inv s hInv, List.nil_append]
  | fire t tm =>
      left
      simp only [validEv, Bool.and_eq_true, decide_eq_true_eq] at hv
      rcases hInv with h | ⟨tm', t0, c0, htm, -⟩
      · rw [h] at hv; exact absurd hv.1 (List.not_mem_nil _)
      · rw [htm] at hv
        have : tm = tm' := by simpa using hv.1
        show List.filter _ s.timers = []
        rw [htm, this]
        simp [List.filter]
  | manual t =>
      left
      show clearSaveTimeout s.timers s.saveTimeoutRef = []
      exact clearSaveTimeout_of_inv s hInv

/-- A valid trace preserves the debounce invariant. -/
theorem debounceInv_run (clipboardId : String)
    (server : String → String → Except String Clipboard) :
    ∀ (evs : List Ev) (s : SysState), DebounceInv s →
      validTrace clipboardId server s evs = true →
      DebounceInv (runTrace clipboardId server s evs) := by
  intro evs
  induction evs with
  | nil => intro s h _; exact h
  | cons e rest ih =>
      intro s h hv
      simp only [validTrace, Bool.and_eq_true] at hv
      exact ih _ (debounceInv_step clipboardId server s e h hv.1) hv.2

/-- C1: auto-save is debounced by a single timer.  In every state reached
by a valid event trace from a freshly mounted system, at most one save
timer is pending, and whenever a save timer can fire — invoking
`saveContent` with the content it captured — the fire time is exactly
1500 ms after the most recent edit and the captured content is that edit's
content (which is still the current editor content). -/
theorem auto_save_debounced_single_timer (clipboardId : String)
    (server : String → String → Except String Clipboard)
    (ed0 : EditorState) (evs : List Ev)
    (hvalid : validTrace clipboardId server (mkSys ed0) evs = true) :
    (runTrace clipboardId server (mkSys ed0) evs).timers.length ≤ 1 ∧
    ∀ (t : Nat) (tm : Timer),
      validEv (runTrace clipboardId server (mkSys ed0) evs)
          (Ev.fire t tm) = true →
      ∃ t0 c0,
        (runTrace clipboardId server (mkSys ed0) evs).lastEdit =
          some (t0, c0) ∧
        t = t0 + 1500 ∧ tm.content = c0 ∧
        (runTrace clipboardId server (mkSys ed0) evs).ed.content = c0 := by
  have hInv : DebounceInv (runTrace clipboardId server (mkSys ed0) evs) :=
    debounceInv_run clipboardId server evs (mkSys ed0) (Or.inl rfl) hvalid
  constructor
  · rcases hInv with h | ⟨tm, t0, c0, htm, -⟩
    · rw [h]; exact Nat.zero_le 1
    · rw [htm]; exact Nat.le_refl 1
  · intro t tm hv
    simp only [validEv, Bool.and_eq_true, decide_eq_true_eq] at hv
    rcases hInv with h | ⟨tm', t0, c0, htm, href, hle, hfa, hc, hec⟩
    · rw [h] at hv; exact absurd hv.1 (List.not_mem_nil _)
    · rw [htm] at hv
      have heq : tm = tm' := by simpa using hv.1
      exact ⟨t0, c0, hle, by rw [hv.2, heq, hfa], by rw [heq, hc], hec⟩

/-- Witness for C1 on a concrete two-edit trace: the trace is valid, the
reached state has one pending timer, and its firing at 1600 ms saves the
second edit's content. -/
theorem auto_save_debounced_single_timer_witness :
    validTrace "cid" srvErr (mkSys initEditorState) evsW = true ∧
    (runTrace "cid" srvErr (mkSys initEditorState) evsW).timers.length ≤ 1 ∧
    (∃ t0 c0,
      (runTrace "cid" srvErr (mkSys initEditorState) evsW).lastEdit =
        some (t0, c0) ∧
      1600 = t0 + 1500 ∧ (Timer.mk 1 1600 "ab").content = c0 ∧
      (runTrace "cid" srvErr (mkSys initEditorState) evsW).ed.content = c0) :=
  ⟨rfl,
   (auto_save_debounced_single_timer "cid" srvErr initEditorState evsW
      rfl).1,
   (auto_save_debounced_single_timer "cid" srvErr initEditorState evsW
      rfl).2 1600 ⟨1, 1600, "ab"⟩ (by decide)⟩

/-- C2: edits are persisted to the remote store.  When the new content
differs from the last saved content and `updateClipboard` succeeds,
`saveContent` issues exactly one `updateClipboard(clipboardId, c)` call
(the ghost log grows by that one entry), stores the server's response as
the clipboard record, advances `lastSavedContent` to `c`, clears
`hasChanges`, and leaves every other editor field unchanged (`isSaving`
ends `false` by the `finally` block). -/
theorem saveContent_persists_changes (clipboardId : String)
    (server : String → String → Except String Clipboard)
    (c : String) (s : EditorState) (data : Clipboard)
    (hne : c ≠ s.lastSavedContent)
    (hsrv : server clipboardId c = Except.ok data) :
    saveContent clipboardId server c s =
      { s with clipboard := some data
               lastSavedContent := c
               hasChanges := false
               isSaving := false
               updateCalls := s.updateCalls ++ [(clipboardId, c)] } := by
  rw [saveContent, if_neg hne, hsrv]

/-- Witness for C2: saving "hello" over an initial (empty) last-saved
content against an accepting server stores the response and the call. -/
theorem saveContent_persists_changes_witness :
    ("hello" ≠ initEditorState.lastSavedContent) ∧
    saveContent "cid" srvOk "hello" initEditorState =
      { initEditorState with
          clipboard := some ⟨"id1", "hello", "t0", "t1"⟩
          lastSavedContent := "hello"
          hasChanges := false
          isSaving := false
          updateCalls := initEditorState.updateCalls ++ [("cid", "hello")] } :=
  ⟨by decide,
   saveContent_persists_changes "cid" srvOk "hello" initEditorState
     ⟨"id1", "hello", "t0", "t1"⟩ (by decide) rfl⟩

/-- C3 counterexample: on the initial fetch the loading flag starts
`true`, and a failing `getClipboard` not only sets the error message but
also flips `isLoading` to `false` (the `finally` block), so setting the
error message is not the only effect of the failure path. -/
theorem fetch_error_not_only_effect_counterexample :
    (fetchClipboard "abc" getSrvErr initEditorState).error =
      some "Clipboard not found" ∧
    (fetchClipboard "abc" getSrvErr initEditorState).isLoading = false ∧
    initEditorState.isLoading = true :=
  ⟨rfl, rfl, rfl⟩

/-- C3 (amended): failure recovery is a toast and an error message, and
save errors are atomic.  If `updateClipboard` throws during `saveContent`
(from a quiescent state, `isSaving = false`), the only effect is appending
a destructive toast (plus the issued request in the ghost log): `content`,
`lastSavedContent`, `hasChanges`, the clipboard record, `error` and
`isLoading` are unchanged.  If `getClipboard` throws during the initial
fetch, the only effects are setting the error message and ending the
loading state; everything else is unchanged. -/
theorem error_paths_atomic (clipboardId : String)
    (server : String → String → Except String Clipboard)
    (getServer : String → Except String Clipboard)
    (s : EditorState) (c msg gmsg : String)
    (hne : c ≠ s.lastSavedContent)
    (hsrv : server clipboardId c = Except.error msg)
    (hsav : s.isSaving = false)
    (hget : getServer clipboardId = Except.error gmsg) :
    saveContent clipboardId server c s =
      { s with toasts := s.toasts ++
          [⟨"Failed to save", msg, some "destructive"⟩]
               updateCalls := s.updateCalls ++ [(clipboardId, c)] } ∧
    fetchClipboard clipboardId getServer s =
      { s with error := some gmsg, isLoading := false } := by
  constructor
  · rw [saveContent, if_neg hne, hsrv]
    cases s
    simp only [EditorState.mk.injEq] at hsav ⊢
    simp [hsav]
  · rw [fetchClipboard]
    rw [hget]

/-- Witness for C3 (amended): a failing save from the initial state (after
marking content changed) and a failing initial fetch, at concrete
values. -/
theorem error_paths_atomic_witness :
    ("x" ≠ initEditorState.lastSavedContent) ∧
    (initEditorState.isSaving = false) ∧
    saveContent "cid" srvErr "x" initEditorState =
      { initEditorState with
          toasts := initEditorState.toasts ++
            [⟨"Failed to save", "Failed to update clipboard",
              some "destructive"⟩]
          updateCalls := initEditorState.updateCalls ++ [("cid", "x")] } ∧
    fetchClipboard "cid" getSrvErr initEditorState =
      { initEditorState with
          error := some "Clipboard not found", isLoading := false } :=
  ⟨by decide, rfl,
   (error_paths_atomic "cid" srvErr getSrvErr initEditorState "x"
      "Failed to update clipboard" "Clipboard not found"
      (by decide) rfl rfl rfl).1,
   (error_paths_atomic "cid" srvErr getSrvErr initEditorState "x"
      "Failed to update clipboard" "Clipboard not found"
      (by decide) rfl rfl rfl).2⟩

/-- C9: `saveContent` is a no-op on unchanged content.  When the new
content equals `lastSavedContent` the function returns before doing
anything: the state — including the ghost log of issued requests — is
exactly the input state. -/
theorem saveContent_noop_on_unchanged (clipboardId : String)
    (server : String → String → Except String Clipboard)
    (c : String) (s : EditorState)
    (h : c = s.lastSavedContent) :
    saveContent clipboardId server c s = s := by
  rw [saveContent, if_pos h]

/-- Witness for C9: saving the still-current initial content changes
nothing. -/
theorem saveContent_noop_on_unchanged_witness :
    ("" = initEditorState.lastSavedContent) ∧
    saveContent "cid" srvOk "" initEditorState = initEditorState :=
  ⟨rfl, saveContent_noop_on_unchanged "cid" srvOk "" initEditorState rfl⟩

/-- A create response is an error exactly when it is not ok. -/
theorem exceptIsError_createHandle (ok : Bool) (st : Nat) (b : Json) :
    exceptIsError (Api.createHandle (FetchResult.response ok st b)) = !ok := by
  cases ok <;> rfl

/-- A read response is an error exactly when it is not ok. -/
theorem exceptIsError_getHandle (ok : Bool) (st : Nat) (b : Json) :
    exceptIsError (Api.getHandle (FetchResult.response ok st b)) = !ok := by
  cases ok
  · simp only [Api.getHandle, Bool.not_false, if_true]
    split <;> rfl
  · rfl

/-- An update response is an error exactly when it is not ok. -/
theorem exceptIsError_updateHandle (ok : Bool) (st : Nat) (b : Json) :
    exceptIsError (Api.updateHandle (FetchResult.response ok st b)) = !ok := by
  cases ok
  · simp only [Api.updateHandle, Bool.not_false, if_true]
    split <;> rfl
  · rfl

/-- C4: the REST client exposes exactly four operations — create
(POST `/clipboard/new`), read (GET `/clipboard/:id`), update
(PUT `/clipboard/:id`) and health-check (GET `/health`), characterised
below by their methods and URLs — and each of create, read and update
rejects exactly when the HTTP response it receives is not ok. -/
theorem api_four_endpoints_throw_iff_not_ok
    (baseUrl clipboardId content : String)
    (f : Request → FetchResult) (ok : Bool) (status : Nat) (body : Json) :
    (Api.createRequest baseUrl).method = "POST" ∧
    (Api.createRequest baseUrl).url = baseUrl ++ "/clipboard/new" ∧
    (Api.getRequest baseUrl clipboardId).method = "GET" ∧
    (Api.getRequest baseUrl clipboardId).url =
      baseUrl ++ "/clipboard/" ++ clipboardId ∧
    (Api.updateRequest baseUrl clipboardId content).method = "PUT" ∧
    (Api.updateRequest baseUrl clipboardId content).url =
      baseUrl ++ "/clipboard/" ++ clipboardId ∧
    (Api.healthRequest baseUrl).method = "GET" ∧
    (Api.healthRequest baseUrl).url = baseUrl ++ "/health" ∧
    (f (Api.createRequest baseUrl) = FetchResult.response ok status body →
      exceptIsError (Api.createClipboard baseUrl f) = !ok) ∧
    (f (Api.getRequest baseUrl clipboardId) =
        FetchResult.response ok status body →
      exceptIsError (Api.getClipboard baseUrl clipboardId f) = !ok) ∧
    (f (Api.updateRequest baseUrl clipboardId content) =
        FetchResult.response ok status body →
      exceptIsError (Api.updateClipboard baseUrl clipboardId content f) =
        !ok) := by
  refine ⟨rfl, rfl, rfl, rfl, rfl, rfl, rfl, rfl, ?_, ?_, ?_⟩ <;> intro hf
  · rw [Api.createClipboard, hf]; exact exceptIsError_createHandle ok status body
  · rw [Api.getClipboard, hf]; exact exceptIsError_getHandle ok status body
  · rw [Api.updateClipboard, hf]; exact exceptIsError_updateHandle ok status body

/-- Witness for C4 at a 404 response: all three fallible operations
reject. -/
theorem api_four_endpoints_throw_iff_not_ok_witness :
    exceptIsError (Api.createClipboard "b" fetchNotFound) = !false ∧
    exceptIsError (Api.getClipboard "b" "x" fetchNotFound) = !false ∧
    exceptIsError (Api.updateClipboard "b" "x" "c" fetchNotFound) = !false :=
  ⟨(api_four_endpoints_throw_iff_not_ok "b" "x" "c" fetchNotFound false 404
      Json.null).2.2.2.2.2.2.2.2.1 rfl,
   (api_four_endpoints_throw_iff_not_ok "b" "x" "c" fetchNotFound false 404
      Json.null).2.2.2.2.2.2.2.2.2.1 rfl,
   (api_four_endpoints_throw_iff_not_ok "b" "x" "c" fetchNotFound false 404
      Json.null).2.2.2.2.2.2.2.2.2.2 rfl⟩

/-- C5 counterexample: the client does not validate response bodies.  A
server answering the read with an ok empty-object body makes
`getClipboard` return that empty object, which does not have the four
declared string fields; so not every value returned by `getClipboard` has
exactly the four fields. -/
theorem clipboard_shape_counterexample :
    Api.getClipboard "https://shared-clipboard-i8et.vercel.app" "abc"
      fetchOkEmptyObj = Except.ok (Json.obj []) ∧
    (Json.obj []).isClipboardRecord = false :=
  ⟨rfl, rfl⟩

/-- C5 (amended): the `Clipboard` interface declares exactly the four
string fields `id`, `content`, `created_at`, `updated_at` — every declared
record serialises to exactly those fields — but `getClipboard` and
`updateClipboard` return the parsed response body without validation, so
the returned value has exactly these four fields if and only if the
server's response body does. -/
theorem clipboard_record_four_fields_passthrough
    (baseUrl clipboardId content : String) (c : Clipboard)
    (f : Request → FetchResult) (st st2 : Nat) (body body2 : Json)
    (hget : f (Api.getRequest baseUrl clipboardId) =
      FetchResult.response true st body)
    (hupd : f (Api.updateRequest baseUrl clipboardId content) =
      FetchResult.response true st2 body2) :
    (Clipboard.toJson c).isClipboardRecord = true ∧
    Api.getClipboard baseUrl clipboardId f = Except.ok body ∧
    Api.updateClipboard baseUrl clipboardId content f = Except.ok body2 := by
  refine ⟨rfl, ?_, ?_⟩
  · rw [Api.getClipboard, hget]; rfl
  · rw [Api.updateClipboard, hupd]; rfl

/-- Witness for C5 (amended): a concrete record serialises to the four
fields, and both operations pass a concrete ok body through. -/
theorem clipboard_record_four_fields_passthrough_witness :
    (Clipboard.toJson ⟨"i", "c", "t0", "t1"⟩).isClipboardRecord = true ∧
    Api.getClipboard "b" "x" fetchOkEmptyObj = Except.ok (Json.obj []) ∧
    Api.updateClipboard "b" "x" "c" fetchOkEmptyObj =
      Except.ok (Json.obj []) :=
  clipboard_record_four_fields_passthrough "b" "x" "c" ⟨"i", "c", "t0", "t1"⟩
    fetchOkEmptyObj 200 200 (Json.obj []) (Json.obj []) rfl rfl

/-- C6: the wire protocol is plain JSON over REST.  The update request
carries body `JSON.stringify \x7b content \x7d` under the
`application/json` content type (shown concretely for the content `hi`),
and each non-health operation returns the `response.json()` parse of an ok
response as its value. -/
theorem wire_protocol_plain_json (baseUrl clipboardId content : String)
    (st : Nat) (body : Json) :
    (Api.updateRequest baseUrl clipboardId content).body =
      some (Json.stringify (Json.obj [("content", Json.str content)])) ∧
    (Api.updateRequest baseUrl clipboardId content).headers =
      [("Content-Type", "application/json")] ∧
    Json.stringify (Json.obj [("content", Json.str "hi")]) =
      "\x7b\"content\":\"hi\"\x7d" ∧
    Api.createHandle (FetchResult.response true st body) = Except.ok body ∧
    Api.getHandle (FetchResult.response true st body) = Except.ok body ∧
    Api.updateHandle (FetchResult.response true st body) = Except.ok body :=
  ⟨rfl, rfl, rfl, rfl, rfl, rfl⟩

/-- C7: a clipboard is editable by anyone holding the identifier.  The
read and update requests are fully determined by the base URL, the
identifier and (for update) the content — the request records are exactly
the ones below — and neither carries an `Authorization` or `Cookie`
credential header. -/
theorem clipboard_requests_carry_no_credential
    (baseUrl clipboardId content : String) :
    Api.getRequest baseUrl clipboardId =
      { method := "GET"
        url := baseUrl ++ "/clipboard/" ++ clipboardId
        headers := []
        body := none
        mode := none } ∧
    Api.updateRequest baseUrl clipboardId content =
      { method := "PUT"
        url := baseUrl ++ "/clipboard/" ++ clipboardId
        headers := [("Content-Type", "application/json")]
        body := some
          (Json.stringify (Json.obj [("content", Json.str content)]))
        mode := none } ∧
    hasHeader (Api.getRequest baseUrl clipboardId) "Authorization" = false ∧
    hasHeader (Api.updateRequest baseUrl clipboardId content)
      "Authorization" = false ∧
    hasHeader (Api.getRequest baseUrl clipboardId) "Cookie" = false ∧
    hasHeader (Api.updateRequest baseUrl clipboardId content) "Cookie" =
      false :=
  ⟨rfl, rfl, rfl, rfl, rfl, rfl⟩

/-- C8: `checkHealth` is total: it always resolves to a boolean — `true`
exactly on an ok `/health` response, and `false` both on a non-ok response
and whenever the fetch itself rejects (the exception is not
propagated). -/
theorem checkHealth_total_never_throws (baseUrl : String)
    (f : Request → FetchResult) :
    (∃ b, Api.checkHealth baseUrl f = Except.ok b) ∧
    (∀ (ok : Bool) (st : Nat) (body : Json),
      f (Api.healthRequest baseUrl) = FetchResult.response ok st body →
        Api.checkHealth baseUrl f = Except.ok ok) ∧
    (∀ msg, f (Api.healthRequest baseUrl) = FetchResult.networkError msg →
        Api.checkHealth baseUrl f = Except.ok false) := by
  refine ⟨?_, ?_, ?_⟩
  · rw [Api.checkHealth]
    cases f (Api.healthRequest baseUrl) with
    | networkError msg => exact ⟨false, rfl⟩
    | response ok st body => exact ⟨ok, rfl⟩
  · intro ok st body hf; rw [Api.checkHealth, hf]
  · intro msg hf; rw [Api.checkHealth, hf]

/-- Witness for C8: a healthy server yields `ok true`, a rejecting fetch
yields `ok false`. -/
theorem checkHealth_total_never_throws_witness :
    Api.checkHealth "b" fetchOkNull = Except.ok true ∧
    Api.checkHealth "b" (fun _ => FetchResult.networkError "net down") =
      Except.ok false :=
  ⟨(checkHealth_total_never_throws "b" fetchOkNull).2.1 true 200
      Json.null rfl,
   (checkHealth_total_never_throws "b"
      (fun _ => FetchResult.networkError "net down")).2.2 "net down" rfl⟩

/-- C10: the two copies of the client are observationally equivalent.  On
every fetch outcome each operation's response handling returns the same
value or rejects with the same error message in both copies; the
health-check and update requests coincide, and the create and read
requests differ from the first copy's exactly in the `cors` request mode
(console logging is I/O outside the value model). -/
theorem api_copies_observationally_equivalent
    (baseUrl clipboardId content : String) :
    (∀ r, Api2.createHandle r = Api.createHandle r) ∧
    (∀ r, Api2.getHandle r = Api.getHandle r) ∧
    (∀ r, Api2.updateHandle r = Api.updateHandle r) ∧
    (∀ f, Api2.checkHealth baseUrl f = Api.checkHealth baseUrl f) ∧
    Api2.createRequest baseUrl =
      { Api.createRequest baseUrl with mode := some "cors" } ∧
    Api2.getRequest baseUrl clipboardId =
      { Api.getRequest baseUrl clipboardId with mode := some "cors" } ∧
    Api2.updateRequest baseUrl clipboardId content =
      Api.updateRequest baseUrl clipboardId content ∧
    Api2.healthRequest baseUrl = Api.healthRequest baseUrl :=
  ⟨fun r => by cases r <;> rfl,
   fun r => by cases r <;> rfl,
   fun r => by cases r <;> rfl,
   fun f => rfl, rfl, rfl, rfl, rfl⟩
